import Mathlib

/-!
Verification development for the Twinstar AstroPi telemetry acquisition
program (`main.py`).

The program is embedded shallowly over exact rationals and naturals:

* `signed_dms` / `convert` model the geographic-angle encoder
  (`convert` in `main.py`, building on the position collaborator's
  `signed_dms` decomposition);
* `remaining` / `attemptCaptures` model the storage-budget pre-check
  (`photos_size < max_photos_size` in the main loop);
* `runIter` / `run` model one iteration, and the whole while-loop, of the
  acquisition loop (lines 96-163 of `main.py`), with the fallible external
  collaborators (sensor cluster, position provider, CSV sink, camera,
  sleep) supplied per-iteration as `Except` oracles in an `IterEnv`.

Machine floats are modelled as exact rationals, timestamps as naturals.
-/

/-- Python-style rounding of an exact rational to the nearest integer,
ties to even: the behaviour of both `round()` and `:.0f` formatting on the
exact value of a float. -/
def rhe (q : ℚ) : ℤ :=
  if q - Int.floor q < 1/2 then Int.floor q
  else if 1/2 < q - Int.floor q then Int.floor q + 1
  else if Int.floor q % 2 = 0 then Int.floor q else Int.floor q + 1

/-- Python `round(q, n)`: round half-to-even at `n` decimal digits. -/
def pyRound (q : ℚ) (n : ℕ) : ℚ :=
  (rhe (q * 10 ^ n) : ℚ) / 10 ^ n

/-- Round to the nearest integer with ties away from zero.  This is the
rounding mode the specification names for degree and minute formatting; it
is compared against the program's behaviour, not used by it. -/
def roundTiesAway (q : ℚ) : ℤ :=
  if 0 ≤ q then Int.floor (q + 1/2) else Int.ceil (q - 1/2)

/-- Result of the position collaborator's signed sexagesimal
decomposition: a sign together with unsigned degrees, minutes and
seconds. -/
structure DMS where
  sign : ℤ
  degrees : ℤ
  minutes : ℤ
  seconds : ℚ
deriving DecidableEq, Repr

/-- Modelled from the spec: the position collaborator's `signed_dms`
decomposition of a signed angle (the skyfield `Angle` method used by
`convert`, external to the repository).  Per the spec it decomposes the
angle exactly into sign plus unsigned degrees, minutes in `[0,59]` and
seconds in `[0,60)`: `sign = sgn θ`; with `total = |θ|·3600` arc-seconds,
`minutesTotal = ⌊total/60⌋`, `seconds = total - 60·minutesTotal`,
`degrees = ⌊minutesTotal/60⌋`, `minutes = minutesTotal - 60·degrees`
(the float `divmod` chain, exact over ℚ). -/
def signed_dms (θ : ℚ) : DMS :=
  let sg : ℤ := if 0 < θ then 1 else if θ < 0 then -1 else 0
  let total : ℚ := |θ| * 3600
  let minutesTotal : ℤ := Int.floor (total / 60)
  let seconds : ℚ := total - 60 * minutesTotal
  let units : ℤ := Int.floor ((minutesTotal : ℚ) / 60)
  ⟨sg, units, minutesTotal - 60 * units, seconds⟩

/-- The numeric content of `convert` in `main.py`: hemisphere flag
`sign < 0`, and the three rational numerators produced by the
`:.0f`-formatting of degrees, minutes and `seconds*10`. -/
def convertTriple (θ : ℚ) : Bool × ℤ × ℤ × ℤ :=
  let d := signed_dms θ
  (decide (d.sign < 0), rhe (d.degrees : ℚ), rhe (d.minutes : ℚ),
    rhe (d.seconds * 10))

/-- The `convert` function of `main.py`: a signed angle becomes a
hemisphere boolean and the EXIF rational string
`degrees/1,minutes/1,seconds*10/10`. -/
def convert (θ : ℚ) : Bool × String :=
  let t := convertTriple θ
  (t.1, toString t.2.1 ++ "/1," ++ toString t.2.2.1 ++ "/1," ++
    toString t.2.2.2 ++ "/10")

/-- Modelled from the spec: decoding an encoded rational triple back to
signed decimal degrees (`degrees + minutes/60 + (seconds·10)/10/3600`,
negated when the hemisphere flag is set).  Stated from the spec's
round-trip wording; the program itself never decodes. -/
def decodeTriple (t : Bool × ℤ × ℤ × ℤ) : ℚ :=
  (if t.1 then -1 else 1) *
    ((t.2.1 : ℚ) + (t.2.2.1 : ℚ) / 60 + ((t.2.2.2 : ℚ) / 10) / 3600)

lemma rhe_intCast (z : ℤ) : rhe (z : ℚ) = z := by
  simp [rhe, Int.floor_intCast]

lemma rhe_sub_abs_le (q : ℚ) : |((rhe q : ℤ) : ℚ) - q| ≤ 1/2 := by
  have hf : ((Int.floor q : ℤ) : ℚ) ≤ q := Int.floor_le q
  have hf2 : q < Int.floor q + 1 := Int.lt_floor_add_one q
  rw [rhe]
  split_ifs with h1 h2 h3 <;>
    (rw [abs_le]; push_cast; constructor <;> linarith)

lemma roundTiesAway_intCast (z : ℤ) : roundTiesAway (z : ℚ) = z := by
  rw [roundTiesAway]
  split_ifs with h
  · rw [Int.floor_int_add]
    norm_num
  · rw [show (z : ℚ) - 1/2 = -(1/2 : ℚ) + z by ring, Int.ceil_add_int]
    norm_num

lemma signed_dms_recompose (θ : ℚ) :
    ((signed_dms θ).degrees : ℚ) + ((signed_dms θ).minutes : ℚ) / 60 +
      (signed_dms θ).seconds / 3600 = |θ| := by
  simp only [signed_dms]
  push_cast
  field_simp
  ring

lemma signed_dms_sign_neg_iff (θ : ℚ) :
    ((signed_dms θ).sign < 0) ↔ θ < 0 := by
  simp only [signed_dms]
  split_ifs with h1 h2
  · constructor
    · intro h
      exact absurd h (by norm_num)
    · intro h
      exact absurd h1 (by linarith)
  · constructor
    · intro _
      exact h2
    · intro _
      norm_num
  · constructor
    · intro h
      exact absurd h (by norm_num)
    · intro h
      exact absurd h h2

/-- Run duration ceiling in minutes (`minutes_to_run = 175`). -/
def minutes_to_run : ℕ := 175

/-- Seconds between samples (`sampling_delta_secs = 10`). -/
def sampling_delta_secs : ℕ := 10

/-- Storage ceiling in bytes (`max_photos_size = 2684354560`). -/
def max_photos_size : ℕ := 2684354560

/-- The storage-budget pre-check: more captures are allowed while the
cumulative photo size is strictly below the ceiling
(`photos_size < max_photos_size` in `main.py`). -/
def remaining (ceiling cumulative : ℕ) : Bool :=
  cumulative < ceiling

/-- The budget evolution over a sequence of attempted captures: each
capture is taken only when the pre-check passes, and its byte size is
then added to the cumulative total, exactly as the main loop does. -/
def attemptCaptures (ceiling : ℕ) : List ℕ → ℕ → ℕ
  | [], cumulative => cumulative
  | s :: rest, cumulative =>
      attemptCaptures ceiling rest
        (if remaining ceiling cumulative then cumulative + s else cumulative)

/-- A Python exception as observed by the handler on line 161 of
`main.py`: its class name and its message. -/
structure Exc where
  kind : String
  msg : String
deriving DecidableEq, Repr

/-- A sub-satellite position returned by `ISS.coordinates()`: signed
decimal degrees. -/
structure Coord where
  latitude : ℚ
  longitude : ℚ
deriving DecidableEq, Repr

/-- One reading of the Sense-HAT cluster (raw, before rounding):
magnetometer, orientation, accelerometer, humidity, temperature. -/
structure SensorSample where
  mag_x : ℚ
  mag_y : ℚ
  mag_z : ℚ
  pitch : ℚ
  roll : ℚ
  yaw : ℚ
  x_acc : ℚ
  y_acc : ℚ
  z_acc : ℚ
  humidity : ℚ
  temperature : ℚ
deriving DecidableEq, Repr

/-- One CSV data row (the `data` tuple of lines 125-141 of `main.py`). -/
structure Row where
  counter : ℕ
  dateTime : ℕ
  latitude : ℚ
  longitude : ℚ
  temperature : ℚ
  humidity : ℚ
  mag_x : ℚ
  mag_y : ℚ
  mag_z : ℚ
  pitch : ℚ
  roll : ℚ
  yaw : ℚ
  x_acc : ℚ
  y_acc : ℚ
  z_acc : ℚ
deriving DecidableEq, Repr

/-- Assemble the CSV row exactly as lines 100-141 of `main.py`:
magnetometer, humidity and temperature rounded to 2 decimals,
orientation and acceleration to 3, latitude and longitude stored at full
precision. -/
def mkRow (counter : ℕ) (dateTime : ℕ) (loc : Coord) (smp : SensorSample) :
    Row where
  counter := counter
  dateTime := dateTime
  latitude := loc.latitude
  longitude := loc.longitude
  temperature := pyRound smp.temperature 2
  humidity := pyRound smp.humidity 2
  mag_x := pyRound smp.mag_x 2
  mag_y := pyRound smp.mag_y 2
  mag_z := pyRound smp.mag_z 2
  pitch := pyRound smp.pitch 3
  roll := pyRound smp.roll 3
  yaw := pyRound smp.yaw 3
  x_acc := pyRound smp.x_acc 3
  y_acc := pyRound smp.y_acc 3
  z_acc := pyRound smp.z_acc 3

/-- The four EXIF geotag fields set by `capture` in `main.py`. -/
structure Geotag where
  south : Bool
  exifLatitude : String
  west : Bool
  exifLongitude : String
deriving DecidableEq, Repr

/-- Build the geotag from a position, as `capture` does via `convert`. -/
def mkGeotag (loc : Coord) : Geotag :=
  let lat := convert loc.latitude
  let lon := convert loc.longitude
  { south := lat.1, exifLatitude := lat.2, west := lon.1,
    exifLongitude := lon.2 }

/-- One line of the event log. -/
inductive LogLine
  | photoInfo (iteration : ℕ) (cumulative : ℕ)
  | maxSizeInfo (iteration : ℕ)
  | errorLine (kind : String) (msg : String)
  | endInfo (iteration : ℕ)
deriving DecidableEq, Repr

/-- The mutable state of the acquisition loop, together with the
observable history it accumulates: CSV rows appended, geotags embedded in
captured photos, number of completed sleeps, and the event log. -/
structure LoopState where
  counter : ℕ
  photos_size : ℕ
  now_time : ℕ
  rows : List Row
  geotags : List Geotag
  sleeps : ℕ
  log : List LogLine
deriving DecidableEq, Repr

/-- The outcomes of the external collaborators for one loop iteration:
the sensor-cluster read, the loop's own position read, the per-row
timestamp, the CSV append, the position read performed inside `capture`,
the camera capture (returning the photo's byte size), the sleep, and the
clock value read when `now_time` is refreshed. -/
structure IterEnv where
  sampleRes : Except Exc SensorSample
  positionRes : Except Exc Coord
  timestamp : ℕ
  appendRes : Except Exc Unit
  capturePos : Coord
  captureRes : Except Exc ℕ
  sleepRes : Except Exc Unit
  clockAfter : ℕ

/-- The handler of lines 160-161 of `main.py`: append an error line with
the exception's kind and message; all other state is left as the failing
iteration left it. -/
def recordError (e : Exc) (s : LoopState) : LoopState :=
  { s with log := s.log ++ [LogLine.errorLine e.kind e.msg] }

/-- Lines 155-159 of `main.py`: increment the counter, then sleep, then
refresh `now_time`; a sleep failure is caught like any other and skips
the refresh. -/
def finishIter (env : IterEnv) (s : LoopState) : LoopState :=
  let s1 := { s with counter := s.counter + 1 }
  match env.sleepRes with
  | .error e => recordError e s1
  | .ok _ =>
      { s1 with sleeps := s1.sleeps + 1, now_time := env.clockAfter }

/-- One iteration of the guarded loop body (lines 97-161 of `main.py`):
read sensors, read position, assemble and append the CSV row, then --- if
the storage budget allows --- capture a geotagged photo (with its own
position read) and consume its size, log, increment the counter, sleep,
refresh the clock.  The first failing step jumps to the handler. -/
def runIter (env : IterEnv) (s : LoopState) : LoopState :=
  match env.sampleRes with
  | .error e => recordError e s
  | .ok smp =>
  match env.positionRes with
  | .error e => recordError e s
  | .ok loc =>
  match env.appendRes with
  | .error e => recordError e s
  | .ok _ =>
  let s1 := { s with rows := s.rows ++ [mkRow s.counter env.timestamp loc smp] }
  if s1.photos_size < max_photos_size then
    match env.captureRes with
    | .error e => recordError e s1
    | .ok size =>
        let s2 := { s1 with geotags := s1.geotags ++ [mkGeotag env.capturePos],
                            photos_size := s1.photos_size + size }
        finishIter env
          { s2 with log := s2.log ++ [LogLine.photoInfo s2.counter s2.photos_size] }
  else
    finishIter env { s1 with log := s1.log ++ [LogLine.maxSizeInfo s1.counter] }

/-- The while-loop of line 96: while `now_time` is before the deadline,
run one iteration; the supplied list of iteration environments serves as
fuel, so an empty list means the run is cut off while still live. -/
def run (deadline : ℕ) : List IterEnv → LoopState → LoopState
  | [], s => s
  | env :: rest, s =>
      if s.now_time < deadline then run deadline rest (runIter env s) else s

/-- The deadline of the run: `start_time + timedelta(minutes=175)`,
in seconds. -/
def runDeadline (startTime : ℕ) : ℕ :=
  startTime + minutes_to_run * 60

/-- The first exception raised inside the guarded body of one iteration,
given the pre-iteration state (the budget check decides whether the
capture step runs at all). -/
def firstError (env : IterEnv) (s : LoopState) : Option Exc :=
  match env.sampleRes with
  | .error e => some e
  | .ok _ =>
  match env.positionRes with
  | .error e => some e
  | .ok _ =>
  match env.appendRes with
  | .error e => some e
  | .ok _ =>
  if s.photos_size < max_photos_size then
    match env.captureRes with
    | .error e => some e
    | .ok _ =>
      match env.sleepRes with
      | .error e => some e
      | .ok _ => none
  else
    match env.sleepRes with
    | .error e => some e
    | .ok _ => none

/-- Whether an iteration reaches the `counter += 1` on line 155: sensor,
position and append succeeded, and the capture succeeded whenever the
budget allowed it to be attempted. -/
def reachesIncrement (env : IterEnv) (s : LoopState) : Bool :=
  env.sampleRes.isOk && env.positionRes.isOk && env.appendRes.isOk &&
    (if s.photos_size < max_photos_size then env.captureRes.isOk else true)

lemma signed_dms_515074 :
    signed_dms (515074/10000) = ⟨1, 51, 30, 2664/100⟩ := by
  have habs : |(515074/10000 : ℚ)| = 515074/10000 := abs_of_pos (by norm_num)
  simp only [signed_dms, habs, DMS.mk.injEq]
  norm_num

lemma signed_dms_neg1278 :
    signed_dms (-(1278/10000)) = ⟨-1, 0, 7, 4008/100⟩ := by
  have habs : |(-(1278/10000) : ℚ)| = 1278/10000 := by
    rw [abs_neg]
    exact abs_of_pos (by norm_num)
  simp only [signed_dms, habs, DMS.mk.injEq]
  norm_num

lemma convertTriple_515074 :
    convertTriple (515074/10000) = (false, 51, 30, 266) := by
  simp only [convertTriple, signed_dms_515074, Prod.mk.injEq]
  refine ⟨by norm_num, ?_, ?_, ?_⟩ <;> (rw [rhe]; norm_num)

lemma convertTriple_neg1278 :
    convertTriple (-(1278/10000)) = (true, 0, 7, 401) := by
  simp only [convertTriple, signed_dms_neg1278, Prod.mk.injEq]
  refine ⟨by norm_num, ?_, ?_, ?_⟩ <;> (rw [rhe]; norm_num)

/-- C4: for every signed angle θ in [-179.999, 179.999], decoding the
encoded rational triple produced by the angle encoder back to decimal
degrees reproduces θ within 1/36000 degree, and the returned hemisphere
boolean is true exactly when θ < 0. -/
theorem convert_roundtrip_within_tolerance (θ : ℚ)
    (hlo : -(179999/1000) ≤ θ) (hhi : θ ≤ 179999/1000) :
    |decodeTriple (convertTriple θ) - θ| ≤ 1/36000 ∧
      ((convertTriple θ).1 = true ↔ θ < 0) := by
  have hrec := signed_dms_recompose θ
  have herr := rhe_sub_abs_le ((signed_dms θ).seconds * 10)
  rw [abs_le] at herr
  constructor
  · simp only [decodeTriple, convertTriple, rhe_intCast, decide_eq_true_eq]
    rcases lt_or_le θ 0 with hneg | hpos
    · rw [if_pos ((signed_dms_sign_neg_iff θ).mpr hneg)]
      rw [abs_of_neg hneg] at hrec
      rw [abs_le]
      constructor <;> linarith [herr.1, herr.2]
    · rw [if_neg (fun h => absurd ((signed_dms_sign_neg_iff θ).mp h)
        (not_lt.mpr hpos))]
      rw [abs_of_nonneg hpos] at hrec
      rw [abs_le]
      constructor <;> linarith [herr.1, herr.2]
  · simp only [convertTriple, decide_eq_true_eq]
    exact signed_dms_sign_neg_iff θ

/-- Witness for C4 at the concrete angle 51.5074 degrees. -/
theorem convert_roundtrip_within_tolerance_witness :
    |decodeTriple (convertTriple (515074/10000)) - 515074/10000| ≤ 1/36000 ∧
      ((convertTriple (515074/10000)).1 = true ↔ (515074/10000 : ℚ) < 0) :=
  convert_roundtrip_within_tolerance (515074/10000) (by norm_num) (by norm_num)

/-- C6: the encoder formats degrees and minutes as integer numerators over
denominator 1 --- and since the decomposition makes them exact integers,
this agrees with round-to-nearest, ties away from zero --- and formats
seconds scaled by 10 over denominator 10, rounded to a nearest integer
(so one decimal digit of arc-second precision is preserved). -/
theorem convert_formatting_modes (θ : ℚ) (sg d m : ℤ) (sec : ℚ)
    (h : signed_dms θ = ⟨sg, d, m, sec⟩) :
    convertTriple θ =
      (decide (sg < 0), roundTiesAway (d : ℚ), roundTiesAway (m : ℚ),
        rhe (sec * 10)) ∧
      |((convertTriple θ).2.2.2 : ℚ) - sec * 10| ≤ 1/2 := by
  constructor
  · simp only [convertTriple, h, roundTiesAway_intCast, rhe_intCast]
  · simp only [convertTriple, h]
    exact rhe_sub_abs_le (sec * 10)

/-- Witness for C6 at the concrete angle 51.5074 degrees. -/
theorem convert_formatting_modes_witness :
    convertTriple (515074/10000) =
      (decide ((1 : ℤ) < 0), roundTiesAway ((51 : ℤ) : ℚ),
        roundTiesAway ((30 : ℤ) : ℚ), rhe ((2664/100 : ℚ) * 10)) ∧
      |((convertTriple (515074/10000)).2.2.2 : ℚ) - (2664/100 : ℚ) * 10| ≤
        1/2 :=
  convert_formatting_modes (515074/10000) 1 51 30 (2664/100) signed_dms_515074

/-- C9: the encoder maps 51.5074 degrees to hemisphere false with encoded
string `51/1,30/1,266/10`, and -0.1278 degrees to hemisphere true with
encoded string `0/1,7/1,401/10`. -/
theorem convert_scenarios :
    convert (515074/10000) = (false, "51/1,30/1,266/10") ∧
    convert (-(1278/10000)) = (true, "0/1,7/1,401/10") := by
  constructor
  · simp only [convert, convertTriple_515074]
    rfl
  · simp only [convert, convertTriple_neg1278]
    rfl

lemma finishIter_counter (env : IterEnv) (s : LoopState) :
    (finishIter env s).counter = s.counter + 1 := by
  rw [finishIter]
  cases env.sleepRes <;> simp [recordError]

lemma finishIter_rows (env : IterEnv) (s : LoopState) :
    (finishIter env s).rows = s.rows := by
  rw [finishIter]
  cases env.sleepRes <;> simp [recordError]

lemma finishIter_geotags (env : IterEnv) (s : LoopState) :
    (finishIter env s).geotags = s.geotags := by
  rw [finishIter]
  cases env.sleepRes <;> simp [recordError]

lemma finishIter_photos_size (env : IterEnv) (s : LoopState) :
    (finishIter env s).photos_size = s.photos_size := by
  rw [finishIter]
  cases env.sleepRes <;> simp [recordError]

lemma finishIter_of_sleep_error (env : IterEnv) (s : LoopState) (e : Exc)
    (h : env.sleepRes = .error e) :
    finishIter env s =
      { s with counter := s.counter + 1,
               log := s.log ++ [LogLine.errorLine e.kind e.msg] } := by
  rw [finishIter, h]
  rfl

lemma finishIter_of_sleep_ok (env : IterEnv) (s : LoopState)
    (h : env.sleepRes = .ok ()) :
    finishIter env s =
      { s with counter := s.counter + 1, sleeps := s.sleeps + 1,
               now_time := env.clockAfter } := by
  rw [finishIter, h]

/-- When some step of the guarded body raises, the iteration performs no
sleep and leaves `now_time` untouched (the sleep and the refresh on lines
157-159 are skipped by the jump to the handler; a failing sleep itself
refreshes nothing). -/
lemma runIter_stalls (env : IterEnv) (s : LoopState) (e : Exc)
    (h : firstError env s = some e) :
    (runIter env s).sleeps = s.sleeps ∧
      (runIter env s).now_time = s.now_time := by
  rw [runIter]
  rw [firstError] at h
  cases hs : env.sampleRes with
  | error e2 => simp [recordError]
  | ok smp =>
  rw [hs] at h
  cases hp : env.positionRes with
  | error e2 => simp [recordError]
  | ok loc =>
  rw [hp] at h
  cases ha : env.appendRes with
  | error e2 => simp [recordError]
  | ok u =>
  rw [ha] at h
  dsimp only at h ⊢
  by_cases hb : s.photos_size < max_photos_size
  · rw [if_pos hb] at h ⊢
    cases hc : env.captureRes with
    | error e2 => simp [recordError]
    | ok size =>
      rw [hc] at h
      dsimp only at h ⊢
      cases hq : env.sleepRes with
      | error e2 =>
          rw [finishIter_of_sleep_error env _ e2 hq]
          exact ⟨rfl, rfl⟩
      | ok u2 => rw [hq] at h; exact absurd h (by simp)
  · rw [if_neg hb] at h ⊢
    cases hq : env.sleepRes with
    | error e2 =>
        rw [finishIter_of_sleep_error env _ e2 hq]
        exact ⟨rfl, rfl⟩
    | ok u2 => rw [hq] at h; exact absurd h (by simp)

/-- Once the budget pre-check fails, an iteration consumes nothing. -/
lemma runIter_photos_size_stable (env : IterEnv) (s : LoopState)
    (h : ¬ s.photos_size < max_photos_size) :
    (runIter env s).photos_size = s.photos_size := by
  rw [runIter]
  cases env.sampleRes with
  | error e => simp [recordError]
  | ok smp =>
  cases env.positionRes with
  | error e => simp [recordError]
  | ok loc =>
  cases env.appendRes with
  | error e => simp [recordError]
  | ok u =>
  dsimp only
  rw [if_neg h]
  rw [finishIter_photos_size]

/-- A fixed sensor reading used by concrete scenarios. -/
def okSample : SensorSample :=
  ⟨1, 2, 3, 4, 5, 6, 7, 8, 9, 10, 11⟩

/-- An iteration in which every collaborator succeeds: the loop reads
position (10, 20), while the capture step's own position read returns
(-30, 40); the photo is 100 bytes; the clock reads 99 after the sleep. -/
def envAllOk : IterEnv where
  sampleRes := .ok okSample
  positionRes := .ok ⟨10, 20⟩
  timestamp := 5
  appendRes := .ok ()
  capturePos := ⟨-30, 40⟩
  captureRes := .ok 100
  sleepRes := .ok ()
  clockAfter := 99

/-- An iteration whose sensor read raises `OSError`. -/
def envSampleFail : IterEnv :=
  { envAllOk with sampleRes := .error ⟨"OSError", "sensor unavailable"⟩ }

/-- An iteration whose camera capture raises `PiCameraError`. -/
def envCaptureFail : IterEnv :=
  { envAllOk with captureRes := .error ⟨"PiCameraError", "capture failed"⟩ }

/-- The loop state at the start of a run: counter 1, nothing consumed,
clock at 0. -/
def st0 : LoopState where
  counter := 1
  photos_size := 0
  now_time := 0
  rows := []
  geotags := []
  sleeps := 0
  log := []

/-- The start state with the storage budget already exhausted. -/
def stFull : LoopState :=
  { st0 with photos_size := max_photos_size }

lemma st0_budget_ok : st0.photos_size < max_photos_size := by
  norm_num [st0, max_photos_size]

lemma runIter_sample_error (env : IterEnv) (s : LoopState) (e : Exc)
    (h : env.sampleRes = .error e) :
    runIter env s = recordError e s := by
  rw [runIter, h]

lemma runIter_position_error (env : IterEnv) (s : LoopState)
    (smp : SensorSample) (e : Exc)
    (h1 : env.sampleRes = .ok smp) (h2 : env.positionRes = .error e) :
    runIter env s = recordError e s := by
  rw [runIter, h1, h2]

lemma runIter_append_error (env : IterEnv) (s : LoopState)
    (smp : SensorSample) (loc : Coord) (e : Exc)
    (h1 : env.sampleRes = .ok smp) (h2 : env.positionRes = .ok loc)
    (h3 : env.appendRes = .error e) :
    runIter env s = recordError e s := by
  rw [runIter, h1, h2, h3]

lemma runIter_capture_error (env : IterEnv) (s : LoopState)
    (smp : SensorSample) (loc : Coord) (e : Exc)
    (h1 : env.sampleRes = .ok smp) (h2 : env.positionRes = .ok loc)
    (h3 : env.appendRes = .ok ()) (h4 : env.captureRes = .error e)
    (hb : s.photos_size < max_photos_size) :
    runIter env s =
      recordError e
        { s with rows := s.rows ++ [mkRow s.counter env.timestamp loc smp] } := by
  rw [runIter, h1, h2, h3]
  dsimp only
  rw [if_pos hb, h4]

lemma runIter_capture_ok (env : IterEnv) (s : LoopState)
    (smp : SensorSample) (loc : Coord) (size : ℕ)
    (h1 : env.sampleRes = .ok smp) (h2 : env.positionRes = .ok loc)
    (h3 : env.appendRes = .ok ()) (h4 : env.captureRes = .ok size)
    (hb : s.photos_size < max_photos_size) :
    runIter env s =
      finishIter env
        { s with photos_size := s.photos_size + size,
                 rows := s.rows ++ [mkRow s.counter env.timestamp loc smp],
                 geotags := s.geotags ++ [mkGeotag env.capturePos],
                 log := s.log ++
                   [LogLine.photoInfo s.counter (s.photos_size + size)] } := by
  rw [runIter, h1, h2, h3]
  dsimp only
  rw [if_pos hb, h4]

lemma runIter_budget_closed (env : IterEnv) (s : LoopState)
    (smp : SensorSample) (loc : Coord)
    (h1 : env.sampleRes = .ok smp) (h2 : env.positionRes = .ok loc)
    (h3 : env.appendRes = .ok ())
    (hb : ¬ s.photos_size < max_photos_size) :
    runIter env s =
      finishIter env
        { s with rows := s.rows ++ [mkRow s.counter env.timestamp loc smp],
                 log := s.log ++ [LogLine.maxSizeInfo s.counter] } := by
  rw [runIter, h1, h2, h3]
  dsimp only
  rw [if_neg hb]

/-- The fully successful iteration, evaluated end to end. -/
lemma runIter_all_ok (env : IterEnv) (s : LoopState) (smp : SensorSample)
    (loc : Coord) (size : ℕ)
    (h1 : env.sampleRes = .ok smp) (h2 : env.positionRes = .ok loc)
    (h3 : env.appendRes = .ok ()) (h4 : env.captureRes = .ok size)
    (h5 : env.sleepRes = .ok ()) (hb : s.photos_size < max_photos_size) :
    runIter env s = { s with
      counter := s.counter + 1,
      photos_size := s.photos_size + size,
      now_time := env.clockAfter,
      rows := s.rows ++ [mkRow s.counter env.timestamp loc smp],
      geotags := s.geotags ++ [mkGeotag env.capturePos],
      sleeps := s.sleeps + 1,
      log := s.log ++ [LogLine.photoInfo s.counter (s.photos_size + size)] } := by
  rw [runIter_capture_ok env s smp loc size h1 h2 h3 h4 hb,
    finishIter_of_sleep_ok env _ h5]

/-- C1 counterexample: with the budget open and a failing capture, the
iteration's record IS appended to the sink --- the append on line 142
precedes the capture attempt on line 147, contradicting the claimed
capture-then-append ordering. -/
theorem row_appended_despite_capture_failure :
    st0.photos_size < max_photos_size ∧
    envCaptureFail.captureRes =
      Except.error ⟨"PiCameraError", "capture failed"⟩ ∧
    (runIter envCaptureFail st0).rows = [mkRow 1 5 ⟨10, 20⟩ okSample] ∧
    ¬ (runIter envCaptureFail st0).rows = [] := by
  have hrows : (runIter envCaptureFail st0).rows =
      [mkRow 1 5 ⟨10, 20⟩ okSample] := by
    rw [runIter_capture_error envCaptureFail st0 okSample ⟨10, 20⟩
      ⟨"PiCameraError", "capture failed"⟩ rfl rfl rfl rfl st0_budget_ok]
    rfl
  refine ⟨st0_budget_ok, rfl, hrows, ?_⟩
  rw [hrows]
  simp

/-- C1 (amended): the record append precedes the capture attempt, so
whenever the sensor read, the position read and the append succeed, the
iteration's row is appended to the sink regardless of the budget state
and of the capture outcome. -/
theorem row_appended_before_capture (env : IterEnv) (s : LoopState)
    (smp : SensorSample) (loc : Coord)
    (h1 : env.sampleRes = .ok smp) (h2 : env.positionRes = .ok loc)
    (h3 : env.appendRes = .ok ()) :
    (runIter env s).rows = s.rows ++ [mkRow s.counter env.timestamp loc smp] := by
  rw [runIter, h1, h2, h3]
  dsimp only
  by_cases hb : s.photos_size < max_photos_size
  · rw [if_pos hb]
    cases env.captureRes with
    | error e =>
        dsimp only
        rw [recordError]
    | ok size =>
        dsimp only
        rw [finishIter_rows]
  · rw [if_neg hb]
    rw [finishIter_rows]

/-- Witness for the amended C1 at the all-success environment. -/
theorem row_appended_before_capture_witness :
    (runIter envAllOk st0).rows =
      st0.rows ++ [mkRow st0.counter envAllOk.timestamp ⟨10, 20⟩ okSample] :=
  row_appended_before_capture envAllOk st0 okSample ⟨10, 20⟩ rfl rfl rfl

/-- C2 counterexample: an iteration whose sensor read raises leaves the
counter unchanged instead of incrementing it, and the next (successful)
iteration reuses the very counter value the failed iteration ran under:
its row carries counter 1. -/
theorem counter_not_incremented_on_failure :
    (runIter envSampleFail st0).counter = st0.counter ∧
    st0.counter = 1 ∧
    ¬ (runIter envSampleFail st0).counter = st0.counter + 1 ∧
    (runIter envAllOk (runIter envSampleFail st0)).rows.map Row.counter =
      [1] := by
  have hstep : runIter envSampleFail st0 =
      recordError ⟨"OSError", "sensor unavailable"⟩ st0 :=
    runIter_sample_error envSampleFail st0 _ rfl
  have hcounter : (runIter envSampleFail st0).counter = 1 := by
    rw [hstep]
    rfl
  refine ⟨by rw [hcounter]; rfl, rfl, by rw [hcounter]; simp [st0], ?_⟩
  rw [hstep]
  rw [runIter_all_ok envAllOk _ okSample ⟨10, 20⟩ 100 rfl rfl rfl rfl rfl
    (by norm_num [recordError, st0, max_photos_size])]
  rfl

/-- C2 (amended): the counter increment on line 155 sits inside the
guarded region after the capture step, so the counter advances by 1
exactly when the iteration reaches it --- sensor, position and append
succeeded, and the capture succeeded whenever the budget allowed it ---
and is left unchanged (to be reused by the next cycle) otherwise. -/
theorem counter_increment_conditional (env : IterEnv) (s : LoopState) :
    (runIter env s).counter =
      if reachesIncrement env s then s.counter + 1 else s.counter := by
  cases hs : env.sampleRes with
  | error e =>
      rw [runIter_sample_error env s e hs, reachesIncrement, hs]
      simp [recordError, Except.toBool]
  | ok smp =>
  cases hp : env.positionRes with
  | error e =>
      rw [runIter_position_error env s smp e hs hp, reachesIncrement, hs, hp]
      simp [recordError, Except.toBool]
  | ok loc =>
  cases ha : env.appendRes with
  | error e =>
      rw [runIter_append_error env s smp loc e hs hp ha, reachesIncrement,
        hs, hp, ha]
      simp [recordError, Except.toBool]
  | ok u =>
  by_cases hb : s.photos_size < max_photos_size
  · cases hc : env.captureRes with
    | error e =>
        rw [runIter_capture_error env s smp loc e hs hp (by rw [ha]) hc hb,
          reachesIncrement, hs, hp, ha, hc]
        simp [recordError, Except.toBool, hb]
    | ok size =>
        rw [runIter_capture_ok env s smp loc size hs hp (by rw [ha]) hc hb,
          finishIter_counter, reachesIncrement, hs, hp, ha, hc]
        simp [Except.toBool, hb]
  · rw [runIter_budget_closed env s smp loc hs hp (by rw [ha]) hb,
      finishIter_counter, reachesIncrement, hs, hp, ha]
    simp [Except.toBool, hb]

/-- C3: every exception raised within the guarded body (sensor read,
position read, append, capture, or even the sleep) is caught by the
handler: the state's log gains an error line carrying the exception's
kind and message, and the while-loop simply proceeds with the next
cycle's environment --- no exception terminates the run. -/
theorem exceptions_caught_and_logged (env : IterEnv) (s : LoopState) (e : Exc)
    (h : firstError env s = some e) :
    (∃ pre, (runIter env s).log = s.log ++ pre ++
      [LogLine.errorLine e.kind e.msg]) ∧
    (∀ deadline rest, s.now_time < deadline →
      run deadline (env :: rest) s = run deadline rest (runIter env s)) := by
  refine ⟨?_, fun deadline rest hlt => by rw [run, if_pos hlt]⟩
  rw [firstError] at h
  cases hs : env.sampleRes with
  | error e2 =>
      rw [hs] at h
      dsimp only at h
      obtain rfl : e2 = e := Option.some.inj h
      refine ⟨[], ?_⟩
      rw [runIter_sample_error env s e2 hs, recordError]
      simp
  | ok smp =>
  rw [hs] at h
  dsimp only at h
  cases hp : env.positionRes with
  | error e2 =>
      rw [hp] at h
      dsimp only at h
      obtain rfl : e2 = e := Option.some.inj h
      refine ⟨[], ?_⟩
      rw [runIter_position_error env s smp e2 hs hp, recordError]
      simp
  | ok loc =>
  rw [hp] at h
  dsimp only at h
  cases ha : env.appendRes with
  | error e2 =>
      obtain rfl : e2 = e := by rw [ha] at h; exact Option.some.inj h
      refine ⟨[], ?_⟩
      rw [runIter_append_error env s smp loc e2 hs hp ha, recordError]
      simp
  | ok u =>
  rw [ha] at h
  dsimp only at h
  by_cases hb : s.photos_size < max_photos_size
  · rw [if_pos hb] at h
    cases hc : env.captureRes with
    | error e2 =>
        obtain rfl : e2 = e := by rw [hc] at h; exact Option.some.inj h
        refine ⟨[], ?_⟩
        have hu : env.appendRes = .ok () := by rw [ha]
        rw [runIter_capture_error env s smp loc e2 hs hp hu hc hb, recordError]
        simp
    | ok size =>
        rw [hc] at h
        dsimp only at h
        cases hq : env.sleepRes with
        | error e2 =>
            obtain rfl : e2 = e := by rw [hq] at h; exact Option.some.inj h
            refine ⟨[LogLine.photoInfo s.counter (s.photos_size + size)], ?_⟩
            have hu : env.appendRes = .ok () := by rw [ha]
            rw [runIter_capture_ok env s smp loc size hs hp hu hc hb,
              finishIter_of_sleep_error env _ e2 hq]
        | ok u2 =>
            rw [hq] at h
            exact absurd h (by simp)
  · rw [if_neg hb] at h
    cases hq : env.sleepRes with
    | error e2 =>
        obtain rfl : e2 = e := by rw [hq] at h; exact Option.some.inj h
        refine ⟨[LogLine.maxSizeInfo s.counter], ?_⟩
        have hu : env.appendRes = .ok () := by rw [ha]
        rw [runIter_budget_closed env s smp loc hs hp hu hb,
          finishIter_of_sleep_error env _ e2 hq]
    | ok u2 =>
        rw [hq] at h
        exact absurd h (by simp)

/-- Witness for C3: a failing sensor read, caught and logged. -/
theorem exceptions_caught_and_logged_witness :
    (∃ pre, (runIter envSampleFail st0).log = st0.log ++ pre ++
      [LogLine.errorLine "OSError" "sensor unavailable"]) ∧
    (∀ deadline rest, st0.now_time < deadline →
      run deadline (envSampleFail :: rest) st0 =
        run deadline rest (runIter envSampleFail st0)) :=
  exceptions_caught_and_logged envSampleFail st0
    ⟨"OSError", "sensor unavailable"⟩ rfl

/-- C7 counterexample: an iteration that fails at the sensor read is
caught and logged, yet the loop performs NO sleep and does NOT refresh
the stored time before re-evaluating the loop condition --- sleep and
refresh sit inside the guarded region and are skipped by the jump to the
handler. -/
theorem no_sleep_no_refresh_after_failure :
    (runIter envSampleFail st0).log =
      [LogLine.errorLine "OSError" "sensor unavailable"] ∧
    (runIter envSampleFail st0).sleeps = st0.sleeps ∧
    envSampleFail.clockAfter = 99 ∧
    ¬ (runIter envSampleFail st0).now_time = envSampleFail.clockAfter := by
  rw [runIter_sample_error envSampleFail st0
    ⟨"OSError", "sensor unavailable"⟩ rfl]
  refine ⟨rfl, rfl, rfl, ?_⟩
  simp [recordError, st0, envSampleFail, envAllOk]

/-- C7 (amended): after an iteration fails with an exception, the loop
skips both the sleep and the now-time refresh: it proceeds directly to
re-evaluating the loop condition with the stale stored time. -/
theorem failed_iteration_skips_sleep_and_refresh (env : IterEnv)
    (s : LoopState) (e : Exc) (h : firstError env s = some e) :
    (runIter env s).sleeps = s.sleeps ∧
      (runIter env s).now_time = s.now_time :=
  runIter_stalls env s e h

/-- Witness for the amended C7 at a concrete failing iteration. -/
theorem failed_iteration_skips_sleep_and_refresh_witness :
    (runIter envSampleFail st0).sleeps = st0.sleeps ∧
      (runIter envSampleFail st0).now_time = st0.now_time :=
  failed_iteration_skips_sleep_and_refresh envSampleFail st0
    ⟨"OSError", "sensor unavailable"⟩ rfl

lemma run_stalls (deadline : ℕ) (envs : List IterEnv) :
    (∀ env ∈ envs, ∀ st : LoopState, (firstError env st).isSome = true) →
    ∀ s : LoopState, s.now_time < deadline →
      (run deadline envs s).now_time = s.now_time ∧
      (run deadline envs s).now_time < deadline := by
  induction envs with
  | nil =>
      intro _ s hlive
      rw [run]
      exact ⟨rfl, hlive⟩
  | cons env rest ih =>
      intro hfail s hlive
      rw [run, if_pos hlive]
      obtain ⟨e, he⟩ := Option.isSome_iff_exists.mp
        (hfail env (List.mem_cons_self env rest) s)
      have hnt : (runIter env s).now_time = s.now_time :=
        (runIter_stalls env s e he).2
      obtain ⟨h1, h2⟩ := ih
        (fun env2 hm st => hfail env2 (List.mem_cons_of_mem env hm) st)
        (runIter env s) (by rw [hnt]; exact hlive)
      exact ⟨by rw [h1, hnt], h2⟩

/-- C10: the loop condition compares a stored now-time that is refreshed
only after a fully successful iteration; if every supplied iteration
raises before the refresh, the stored time never advances and the
condition is still live after the whole run --- the loop can never exit
through the time ceiling without at least one successful refresh. -/
theorem stalled_clock_prevents_ceiling_exit (deadline : ℕ)
    (envs : List IterEnv) (s : LoopState)
    (hfail : ∀ env ∈ envs, ∀ st : LoopState, (firstError env st).isSome = true)
    (hlive : s.now_time < deadline) :
    (run deadline envs s).now_time = s.now_time ∧
      (run deadline envs s).now_time < deadline :=
  run_stalls deadline envs hfail s hlive

/-- Witness for C10: a run of one always-failing iteration keeps the
clock at 0, still below the deadline 5. -/
theorem stalled_clock_prevents_ceiling_exit_witness :
    (run 5 [envSampleFail] st0).now_time = st0.now_time ∧
      (run 5 [envSampleFail] st0).now_time < 5 :=
  stalled_clock_prevents_ceiling_exit 5 [envSampleFail] st0
    (fun env henv st => by
      rw [List.mem_singleton] at henv
      subst henv
      rfl)
    (by norm_num [st0])

lemma attemptCaptures_le (ceiling : ℕ) (sizes : List ℕ) :
    ∀ cum : ℕ, cum ≤ attemptCaptures ceiling sizes cum := by
  induction sizes with
  | nil =>
      intro cum
      rw [attemptCaptures]
  | cons s rest ih =>
      intro cum
      rw [attemptCaptures]
      by_cases h : remaining ceiling cum = true
      · rw [if_pos h]
        exact le_trans (Nat.le_add_right cum s) (ih (cum + s))
      · rw [if_neg h]
        exact ih cum

lemma attemptCaptures_of_not_remaining (ceiling : ℕ) (sizes : List ℕ) :
    ∀ cum : ℕ, remaining ceiling cum = false →
      attemptCaptures ceiling sizes cum = cum := by
  induction sizes with
  | nil =>
      intro cum _
      rw [attemptCaptures]
  | cons s rest ih =>
      intro cum h
      rw [attemptCaptures, h]
      exact ih cum h

lemma attemptCaptures_bound (ceiling B : ℕ) :
    ∀ (sizes : List ℕ), (∀ x ∈ sizes, x ≤ B) →
      ∀ cum : ℕ, cum ≤ ceiling + B →
        attemptCaptures ceiling sizes cum ≤ ceiling + B := by
  intro sizes
  induction sizes with
  | nil =>
      intro _ cum h
      rw [attemptCaptures]
      exact h
  | cons s rest ih =>
      intro hB cum h
      rw [attemptCaptures]
      by_cases hr : remaining ceiling cum = true
      · rw [if_pos hr]
        refine ih (fun x hx => hB x (List.mem_cons_of_mem s hx)) (cum + s) ?_
        have hlt : cum < ceiling := by simpa [remaining] using hr
        have hsB : s ≤ B := hB s (List.mem_cons_self s rest)
        omega
      · rw [if_neg hr]
        exact ih (fun x hx => hB x (List.mem_cons_of_mem s hx)) cum h

/-- C5: the budget pre-check is exactly `cumulative < ceiling`; the
cumulative total never decreases over attempted captures; once the check
is false nothing more is ever consumed (it stays false forever); total
consumption exceeds the ceiling by at most one capture's size; and the
spec's concrete scenario: with ceiling 1000 and captures of 600 then 500
bytes, the second capture is still attempted (600 < 1000), after which
the total is 1100 and the check is false for all later iterations.  The
main loop evaluates the same check on `photos_size` before each capture:
once it is false an iteration consumes nothing. -/
theorem remaining_budget_spec (env : IterEnv) (s : LoopState)
    (ceiling cum B : ℕ) (sizes more : List ℕ)
    (hB : ∀ x ∈ sizes, x ≤ B) :
    (remaining ceiling cum = true ↔ cum < ceiling) ∧
    cum ≤ attemptCaptures ceiling sizes cum ∧
    attemptCaptures ceiling sizes 0 ≤ ceiling + B ∧
    (remaining ceiling cum = false → attemptCaptures ceiling sizes cum = cum) ∧
    (remaining max_photos_size s.photos_size = false →
      (runIter env s).photos_size = s.photos_size) ∧
    attemptCaptures 1000 [600] 0 = 600 ∧
    remaining 1000 600 = true ∧
    attemptCaptures 1000 [600, 500] 0 = 1100 ∧
    remaining 1000 1100 = false ∧
    attemptCaptures 1000 more 1100 = 1100 := by
  refine ⟨by simp [remaining], attemptCaptures_le ceiling sizes cum,
    attemptCaptures_bound ceiling B sizes hB 0 (Nat.zero_le _),
    attemptCaptures_of_not_remaining ceiling sizes cum, ?_, rfl, rfl, rfl,
    rfl, attemptCaptures_of_not_remaining 1000 more 1100 rfl⟩
  intro hr
  refine runIter_photos_size_stable env s ?_
  simpa [remaining] using hr

/-- Witness for C5 at concrete budget parameters. -/
theorem remaining_budget_spec_witness :
    (remaining 1000 600 = true ↔ 600 < 1000) ∧
    600 ≤ attemptCaptures 1000 [600] 600 ∧
    attemptCaptures 1000 [600] 0 ≤ 1000 + 600 ∧
    (remaining 1000 600 = false → attemptCaptures 1000 [600] 600 = 600) ∧
    (remaining max_photos_size stFull.photos_size = false →
      (runIter envAllOk stFull).photos_size = stFull.photos_size) ∧
    attemptCaptures 1000 [600] 0 = 600 ∧
    remaining 1000 600 = true ∧
    attemptCaptures 1000 [600, 500] 0 = 1100 ∧
    remaining 1000 1100 = false ∧
    attemptCaptures 1000 [500] 1100 = 1100 :=
  remaining_budget_spec envAllOk stFull 1000 600 600 [600] [500]
    (by decide)

/-- C8 counterexample: in a fully successful iteration the CSV row holds
the loop's position read (10, 20), while the geotag embedded in the photo
encodes the capture step's own, second position read (-30, 40) --- the
southern-hemisphere flag of the stored geotag is `true` although the
row's latitude 10 encodes to hemisphere `false`, so the geotag is NOT the
encoding of the row's position sample. -/
theorem geotag_not_from_row_position :
    (runIter envAllOk st0).rows.map (fun r => (r.latitude, r.longitude)) =
      [((10 : ℚ), (20 : ℚ))] ∧
    (runIter envAllOk st0).geotags = [mkGeotag ⟨-30, 40⟩] ∧
    (mkGeotag ⟨-30, 40⟩).south = true ∧
    (mkGeotag ⟨10, 20⟩).south = false ∧
    ¬ (runIter envAllOk st0).geotags = [mkGeotag ⟨10, 20⟩] := by
  have heval := runIter_all_ok envAllOk st0 okSample ⟨10, 20⟩ 100
    rfl rfl rfl rfl rfl st0_budget_ok
  have hsouth1 : (mkGeotag (⟨-30, 40⟩ : Coord)).south = true := by
    simp only [mkGeotag, convert, convertTriple, signed_dms]
    norm_num
  have hsouth2 : (mkGeotag (⟨10, 20⟩ : Coord)).south = false := by
    simp only [mkGeotag, convert, convertTriple, signed_dms]
    norm_num
  refine ⟨by rw [heval]; rfl, by rw [heval]; rfl, hsouth1, hsouth2, ?_⟩
  rw [heval]
  intro h
  have h2 : mkGeotag ⟨-30, 40⟩ = mkGeotag ⟨10, 20⟩ := by
    have h3 : ([mkGeotag ⟨-30, 40⟩] : List Geotag) = [mkGeotag ⟨10, 20⟩] := h
    exact (List.cons.injEq _ _ _ _).mp h3 |>.1
  have h4 := congrArg Geotag.south h2
  rw [hsouth1, hsouth2] at h4
  exact Bool.noConfusion h4

/-- C8 (amended): a capturing iteration performs two separate position
reads: the loop's read (line 123) supplies the full-precision decimal
degrees stored in the CSV row, while the capture step's own read (line
44) supplies the full-precision values encoded into the geotag; the
geotag therefore encodes the capture step's sample, not the row's. -/
theorem geotag_from_capture_position_read (env : IterEnv) (s : LoopState)
    (smp : SensorSample) (loc : Coord) (size : ℕ)
    (h1 : env.sampleRes = .ok smp) (h2 : env.positionRes = .ok loc)
    (h3 : env.appendRes = .ok ()) (h4 : env.captureRes = .ok size)
    (hb : s.photos_size < max_photos_size) :
    (runIter env s).geotags = s.geotags ++ [mkGeotag env.capturePos] ∧
    (runIter env s).rows.map (fun r => (r.latitude, r.longitude)) =
      s.rows.map (fun r => (r.latitude, r.longitude)) ++
        [(loc.latitude, loc.longitude)] := by
  rw [runIter_capture_ok env s smp loc size h1 h2 h3 h4 hb]
  constructor
  · rw [finishIter_geotags]
  · rw [finishIter_rows]
    simp [mkRow]

/-- Witness for the amended C8 at the all-success environment. -/
theorem geotag_from_capture_position_read_witness :
    (runIter envAllOk st0).geotags =
      st0.geotags ++ [mkGeotag envAllOk.capturePos] ∧
    (runIter envAllOk st0).rows.map (fun r => (r.latitude, r.longitude)) =
      st0.rows.map (fun r => (r.latitude, r.longitude)) ++
        [((10 : ℚ), (20 : ℚ))] :=
  geotag_from_capture_position_read envAllOk st0 okSample ⟨10, 20⟩ 100
    rfl rfl rfl rfl st0_budget_ok
